import Mathlib

/-!
Verification development for the folio-location-batch scripts.

The Python sources (`pol_fund.py`, `pol_expenseclasses.py`, `pol-fund-batch.py`,
`location-batch.py`) are batch drivers that read rows of (key, requested value),
look up remote records, mutate them, and write audit rows.  This file gives a
shallow embedding of the relevant functions.  Remote interaction is modelled by
oracles (functions supplying the responses the remote system would return) and
an explicit trace of mutating effects (PUT and release-POST calls).  The uuid4
generator is modelled as a function `gen : Nat -> String` applied to a counter
threaded through the computation; its freshness and injectivity, which in the
source are probabilistic properties of uuid4, appear as explicit hypotheses
where a theorem needs them.  Timestamps (`datetime.now`) and purely reading
calls (`folio_get` checks) are not modelled since no audited property depends
on them.  JSON serialization of the snapshot is modelled by returning the list
value itself; `json.dumps` of a plain string is modelled by surrounding quotes
(character escaping elided).
-/

/-- An HTTP response as the scripts observe it: `resp.status_code` and `resp.text`. -/
structure Resp where
  status_code : Nat
  text : String
deriving DecidableEq

/-- One fund distribution entry of a POL.  The Python code manipulates open
dicts; the fields below are exactly the keys the scripts read or write
(`code`, `fundId`, `expenseClassId`, `encumbrance`). -/
structure FundDist where
  code : String
  fundId : String
  expenseClassId : String
  encumbrance : String
deriving DecidableEq

/-- A purchase order line: the scripts read `pol["id"]` and
`pol["fundDistribution"]`.  A missing `fundDistribution` key and an empty list
are both guarded by `pol.get("fundDistribution") is None or len(...) == 0`,
so both are embedded as the empty list. -/
structure POL where
  id : String
  fundDistribution : List FundDist
deriving DecidableEq

/-- A mutating remote call: a PUT of a POL (whose payload either lacks the
`fundDistribution` field, `none`, or carries the list `some l`), or a POST to
the release-encumbrance endpoint. -/
inductive Effect where
  | put (polId : String) (fundDistribution : Option (List FundDist))
  | post_release (encId : String)
deriving DecidableEq

/-- Outcome of one batch row or of a whole run: audit rows written, mutating
effects performed, and the uuid-counter value; `abort` is an uncaught Python
exception (the rows/effects that had already happened are kept in the trace). -/
inductive Step (ρ : Type) where
  | ok (rows : List ρ) (effs : List Effect) (ctr : Nat)
  | abort (rows : List ρ) (effs : List Effect) (err : String)
deriving DecidableEq

/-- Effects of a `Step`, whether it finished or aborted. -/
def Step.effects {ρ : Type} : Step ρ → List Effect
  | .ok _ e _ => e
  | .abort _ e _ => e

/-- Result of the re-encumbrance engine functions (`update_expense_class`,
`reencumber_pol`, `set_pol_fund`): the returned triple (status, text, snapshot)
plus the effect trace and the uuid counter after the call. -/
structure EngineResult where
  status_code : Nat
  text : String
  fundDistOrig : List FundDist
  effects : List Effect
  ctr2 : Nat
deriving DecidableEq

/-- A single-quote character, as it appears inside the audit messages. -/
def sqMark : String := String.singleton (Char.ofNat 39)

/-- `json.dumps` applied to a plain string: surrounding double quotes
(escaping of special characters elided). -/
def jsonDumpsString (s : String) : String := "\x22" ++ s ++ "\x22"

/-- The reattach loop of `update_expense_class` (pol_expenseclasses.py lines
359-364): each entry gets a freshly generated encumbrance token and the new
expense class id. -/
def reencumberEC (gen : Nat → String) (exp_class_id : String) :
    Nat → List FundDist → List FundDist
  | _, [] => []
  | n, fd :: rest =>
      { fd with encumbrance := gen n, expenseClassId := exp_class_id }
        :: reencumberEC gen exp_class_id (n + 1) rest

/-- The reattach loop of `reencumber_pol` (pol_expenseclasses.py lines
254-257): each entry gets a freshly generated encumbrance token. -/
def reencumberOnly (gen : Nat → String) : Nat → List FundDist → List FundDist
  | _, [] => []
  | n, fd :: rest =>
      { fd with encumbrance := gen n } :: reencumberOnly gen (n + 1) rest

/-- The mutation loop of `set_pol_fund` (pol_fund.py lines 262-266): each
entry gets the new fund code, the fund id looked up from the funds table, and
a freshly generated encumbrance token.  The dict access `funds[fund_code]`
raises `KeyError` when the code is absent, which happens at the first loop
iteration; this is the `.error` case (only reachable with a non-empty list,
as in the source). -/
def setFundDists (fund_code : String) (funds : String → Option String)
    (gen : Nat → String) : Nat → List FundDist → Except String (List FundDist)
  | _, [] => .ok []
  | n, fd :: rest =>
      match funds fund_code with
      | none => .error ("KeyError: " ++ sqMark ++ fund_code ++ sqMark)
      | some fid =>
          match setFundDists fund_code funds gen (n + 1) rest with
          | .error e => .error e
          | .ok tl =>
              .ok ({ fd with code := fund_code, fundId := fid,
                             encumbrance := gen n } :: tl)

/-- `update_expense_class` (pol_expenseclasses.py lines 312-385).  The
snapshot `fundDistListOrig = copy.deepcopy(fundDistList)` is taken before any
mutation and is the entry value of `pol.fundDistribution`.  The first PUT
persists the POL without the `fundDistribution` field; on a non-204 status the
function returns at once.  Otherwise every entry is re-encumbered in place and
the second PUT persists the restored list; the second response's status and
text are returned unconditionally. -/
def update_expense_class (pol : POL) (exp_class_id : String)
    (gen : Nat → String) (ctr : Nat) (detachResp reattachResp : Resp) :
    EngineResult :=
  if detachResp.status_code ≠ 204 then
    { status_code := detachResp.status_code
      text := "failed to remove fund distribution: \n" ++ detachResp.text
      fundDistOrig := pol.fundDistribution
      effects := [Effect.put pol.id none]
      ctr2 := ctr }
  else
    { status_code := reattachResp.status_code
      text := reattachResp.text
      fundDistOrig := pol.fundDistribution
      effects := [Effect.put pol.id none,
                  Effect.put pol.id
                    (some (reencumberEC gen exp_class_id ctr pol.fundDistribution))]
      ctr2 := ctr + pol.fundDistribution.length }

/-- `reencumber_pol` (pol_expenseclasses.py lines 209-279): identical to
`update_expense_class` except that the reattach loop only replaces the
encumbrance tokens. -/
def reencumber_pol (pol : POL) (gen : Nat → String) (ctr : Nat)
    (detachResp reattachResp : Resp) : EngineResult :=
  if detachResp.status_code ≠ 204 then
    { status_code := detachResp.status_code
      text := "failed to remove fund distribution: \n" ++ detachResp.text
      fundDistOrig := pol.fundDistribution
      effects := [Effect.put pol.id none]
      ctr2 := ctr }
  else
    { status_code := reattachResp.status_code
      text := reattachResp.text
      fundDistOrig := pol.fundDistribution
      effects := [Effect.put pol.id none,
                  Effect.put pol.id
                    (some (reencumberOnly gen ctr pol.fundDistribution))]
      ctr2 := ctr + pol.fundDistribution.length }

/-- `set_pol_fund` (pol_fund.py lines 222-288).  Snapshot before mutation,
one mutation loop over the entries (new code, fund id from the lookup table,
fresh token), a single PUT, and the response's status and text returned with
the serialized snapshot.  A missing fund code raises `KeyError` before the PUT
(the `.error` case).  The trailing `folio_get` check is a pure read and is not
traced. -/
def set_pol_fund (pol : POL) (fund_code : String)
    (funds : String → Option String) (gen : Nat → String) (ctr : Nat)
    (putResp : Resp) : Except String EngineResult :=
  match setFundDists fund_code funds gen ctr pol.fundDistribution with
  | .error e => .error e
  | .ok newDist =>
      .ok { status_code := putResp.status_code
            text := putResp.text
            fundDistOrig := pol.fundDistribution
            effects := [Effect.put pol.id (some newDist)]
            ctr2 := ctr + pol.fundDistribution.length }

/-- The remote response to the order-lines query by PO line number:
`totalRecords` and the `poLines` array. -/
structure PolQueryRes where
  totalRecords : Nat
  poLines : List POL
deriving DecidableEq

/-- `get_pol_by_line_no` (pol_fund.py lines 175-201, identical in
pol_expenseclasses.py): zero records yields `None`; more than one record
raises; otherwise `poLines[0]` is returned (an empty array despite
`totalRecords == 1` would raise `IndexError`). -/
def get_pol_by_line_no (pol_no : String) (res : PolQueryRes) :
    Except String (Option POL) :=
  if res.totalRecords = 0 then .ok none
  else if 1 < res.totalRecords then
    .error ("query for POL num " ++ pol_no ++ " resulted in "
      ++ toString res.totalRecords ++ " results, should be unique")
  else
    match res.poLines with
    | [] => .error "IndexError: list index out of range"
    | p :: _ => .ok (some p)

/-- An inventory item; only its identity matters to the settled claims. -/
structure Item where
  id : String
deriving DecidableEq

/-- The remote response to the items query by barcode. -/
structure ItemQueryRes where
  totalRecords : Nat
  items : List Item
deriving DecidableEq

/-- `get_item_by_barcode` (location-batch.py lines 92-113): zero records
yields `None`; otherwise `items[0]` is returned, whatever `totalRecords`
says. -/
def get_item_by_barcode (res : ItemQueryRes) : Except String (Option Item) :=
  if res.totalRecords = 0 then .ok none
  else
    match res.items with
    | [] => .error "IndexError: list index out of range"
    | i :: _ => .ok (some i)

/-- A datetime value as the fiscal-year periods carry it: a date part and a
time-of-day part; `datetime.fromisoformat(s).date()` keeps only the date. -/
structure DateTime where
  date : Int
  timeOfDay : Nat
deriving DecidableEq

/-- `.date()` truncation of a datetime. -/
def toDate (dt : DateTime) : Int := dt.date

/-- A fiscal year record: `periodStart`, `periodEnd` and the fields the
drivers read (`id`). -/
structure FiscalYear where
  id : String
  periodStart : DateTime
  periodEnd : DateTime
deriving DecidableEq

/-- `get_fiscal_year` (pol_fund.py lines 129-159): walk the fiscal-year list
and return the first whose truncated start is `<=` today and whose truncated
end is `>=` today; `None` when no entry matches. -/
def get_fiscal_year (today : Int) : List FiscalYear → Option FiscalYear
  | [] => none
  | fy :: rest =>
      if toDate fy.periodStart ≤ today ∧ today ≤ toDate fy.periodEnd then
        some fy
      else get_fiscal_year today rest

/-- An expense class record: the fields the script reads. -/
structure ExpClass where
  id : String
  code : String
  name : String
deriving DecidableEq

/-- Python dict lookup for a dict built by inserting the pairs in list order:
the last insertion for a key wins. -/
def dictLookup {α : Type} (k : String) : List (String × α) → Option α
  | [] => none
  | (k0, v) :: rest =>
      match dictLookup k rest with
      | some v1 => some v1
      | none => if k0 = k then some v else none

/-- The `ec_by_code` dictionary of pol_expenseclasses.py `main_loop`. -/
def ec_by_code (ecs : List ExpClass) : List (String × ExpClass) :=
  ecs.map (fun e => (e.code, e))

/-- The `ec_by_id` dictionary of pol_expenseclasses.py `main_loop`. -/
def ec_by_id (ecs : List ExpClass) : List (String × ExpClass) :=
  ecs.map (fun e => (e.id, e))

/-- The loop of pol_expenseclasses.py `main_loop` lines 465-469 collecting
`orig_exp_code` and `orig_exp_name` from the snapshot: each distribution's
`expenseClassId` is looked up in `ec_by_id`; a miss raises `KeyError`. -/
def origExpCodes (ecs : List ExpClass) :
    List FundDist → Except String (List String × List String)
  | [] => .ok ([], [])
  | fd :: rest =>
      match dictLookup fd.expenseClassId (ec_by_id ecs) with
      | none => .error ("KeyError: " ++ sqMark ++ fd.expenseClassId ++ sqMark)
      | some ec =>
          match origExpCodes ecs rest with
          | .error e => .error e
          | .ok (cs, ns) => .ok (ec.code :: cs, ec.name :: ns)

/-- One audit row of pol_fund.py `main_loop` (DictWriter over the fieldnames
of `main`); keys a given `writerow` call omits are `none`.  The timestamp
column only records the wall clock and is not modelled. -/
structure FundAuditRow where
  pol_no : Option String := none
  fund : Option String := none
  pol_id : Option String := none
  status_code : Option Nat := none
  message : Option String := none
  original_fund_distribution : Option (List FundDist) := none
  manual_review : Option String := none
deriving DecidableEq

/-- The remote world as pol_fund.py `main_loop` observes it for one run:
the funds table keyed by code (only the `id` field of a fund is ever read),
the order-lines query result per PO line number, the unreleased-encumbrance
ids per POL id in the current fiscal year, and the responses to the release
POST and the order-line PUT.  `gen` is the uuid4 supply. -/
structure FundWorld where
  funds : String → Option String
  lookup : String → PolQueryRes
  encs : String → List String
  releaseResp : String → Resp
  putResp : String → Resp
  gen : Nat → String

/-- The release loop of pol_fund.py `main_loop` lines 425-442: POST the
release for each encumbrance; on a non-204 status write a manual-review row
and `continue` — which continues the *inner* loop, so the row's processing
still proceeds afterwards. -/
def releaseLoop (w : FundWorld) (pol_no : String) :
    List String → List FundAuditRow × List Effect
  | [] => ([], [])
  | e :: rest =>
      let tl := releaseLoop w pol_no rest
      if (w.releaseResp e).status_code ≠ 204 then
        ({ pol_no := some pol_no,
           status_code := some (w.releaseResp e).status_code,
           message := some ("failed to release encumbrance: "
             ++ jsonDumpsString (w.releaseResp e).text),
           manual_review := some "Y" } :: tl.1,
         Effect.post_release e :: tl.2)
      else (tl.1, Effect.post_release e :: tl.2)

/-- One iteration of pol_fund.py `main_loop` (lines 348-469): unknown fund
code, missing POL, zero or several fund distributions, and a number of
unreleased encumbrances other than one each write one manual-review row and
move to the next input row; otherwise the encumbrance is released (a failure
there only writes an extra row) and `set_pol_fund` runs, its outcome written
with `manual_review = "N"`.  An uncaught exception (ambiguous lookup,
`KeyError`) is an `abort`. -/
def processFundRow (w : FundWorld) (row : String × String) (ctr : Nat) :
    Step FundAuditRow :=
  match w.funds row.2 with
  | none =>
      .ok [{ pol_no := some row.1, fund := some row.2,
             message := some "fund code does not exist",
             manual_review := some "Y" }] [] ctr
  | some _ =>
      match get_pol_by_line_no row.1 (w.lookup row.1) with
      | .error e => .abort [] [] e
      | .ok none =>
          .ok [{ pol_no := some row.1, fund := some row.2,
                 message := some ("No POL found for line number "
                   ++ sqMark ++ row.1 ++ sqMark),
                 manual_review := some "Y" }] [] ctr
      | .ok (some pol) =>
          if pol.fundDistribution.length = 0 then
            .ok [{ pol_no := some row.1,
                   message := some "POL has 0 fund distributions",
                   manual_review := some "Y" }] [] ctr
          else if 1 < pol.fundDistribution.length then
            .ok [{ pol_no := some row.1,
                   message := some ("POL has "
                     ++ toString pol.fundDistribution.length
                     ++ " fund distributions"),
                   manual_review := some "Y" }] [] ctr
          else if (w.encs pol.id).length ≠ 1 then
            .ok [{ pol_no := some row.1,
                   message := some ("POL has "
                     ++ toString (w.encs pol.id).length
                     ++ " unreleased encumbrances"),
                   manual_review := some "Y" }] [] ctr
          else
            match set_pol_fund pol row.2 w.funds w.gen ctr (w.putResp pol.id) with
            | .error e =>
                .abort (releaseLoop w row.1 (w.encs pol.id)).1
                  (releaseLoop w row.1 (w.encs pol.id)).2 e
            | .ok res =>
                .ok ((releaseLoop w row.1 (w.encs pol.id)).1
                      ++ [{ pol_no := some row.1, fund := some row.2,
                            pol_id := some pol.id,
                            status_code := some res.status_code,
                            message := some res.text,
                            original_fund_distribution := some res.fundDistOrig,
                            manual_review := some "N" }])
                  ((releaseLoop w row.1 (w.encs pol.id)).2 ++ res.effects)
                  res.ctr2

/-- pol_fund.py `main_loop`: process the input rows in order, stopping at an
uncaught exception and accumulating audit rows and effects otherwise. -/
def main_loop_fund (w : FundWorld) : List (String × String) → Nat →
    Step FundAuditRow
  | [], ctr => .ok [] [] ctr
  | r :: rest, ctr =>
      match processFundRow w r ctr with
      | .abort rows effs e => .abort rows effs e
      | .ok rows1 effs1 ctr1 =>
          match main_loop_fund w rest ctr1 with
          | .ok rows2 effs2 ctr2 => .ok (rows1 ++ rows2) (effs1 ++ effs2) ctr2
          | .abort rows2 effs2 e => .abort (rows1 ++ rows2) (effs1 ++ effs2) e

/-- One audit row of pol_expenseclasses.py `main_loop` (DictWriter over the
fieldnames of `main`); omitted keys are `none`; the timestamp is not
modelled. -/
structure ECAuditRow where
  pol_no : Option String := none
  expense_code : Option String := none
  pol_id : Option String := none
  status_code : Option Nat := none
  message : Option String := none
  original_expense_code : Option String := none
  original_expense_name : Option String := none
  manual_review : Option String := none
deriving DecidableEq

/-- The remote world as pol_expenseclasses.py `main_loop` observes it:
the order-lines query per PO line number and the responses to the two PUTs
of `update_expense_class` (detach, then reattach), keyed by POL id. -/
structure ECWorld where
  lookup : String → PolQueryRes
  detachResp : String → Resp
  reattachResp : String → Resp
  gen : Nat → String

/-- One iteration of pol_expenseclasses.py `main_loop` (lines 422-483):
missing POL and zero fund distributions write one manual-review row and move
on; `ec_by_code[exp_class_code]` raises `KeyError` when the requested code is
unknown (an `abort`, before any mutation); otherwise `update_expense_class`
runs with the looked-up expense class (the source passes the full class dict
where a string id is annotated; it is stored opaquely, so the embedding
passes the class id), the original expense codes/names are resolved from the
snapshot (a `KeyError` there aborts after the PUTs), and the outcome row is
written with `manual_review = "N"`. -/
def processECRow (ecs : List ExpClass) (w : ECWorld) (row : String × String)
    (ctr : Nat) : Step ECAuditRow :=
  match get_pol_by_line_no row.1 (w.lookup row.1) with
  | .error e => .abort [] [] e
  | .ok none =>
      .ok [{ pol_no := some row.1,
             message := some ("No POL found for line number "
               ++ sqMark ++ row.1 ++ sqMark),
             manual_review := some "Y" }] [] ctr
  | .ok (some pol) =>
      if pol.fundDistribution.length = 0 then
        .ok [{ pol_no := some row.1,
               message := some "POL has 0 fund distributions",
               manual_review := some "Y" }] [] ctr
      else
        match dictLookup row.2 (ec_by_code ecs) with
        | none => .abort [] [] ("KeyError: " ++ sqMark ++ row.2 ++ sqMark)
        | some ec =>
            match origExpCodes ecs
                (update_expense_class pol ec.id w.gen ctr
                  (w.detachResp pol.id) (w.reattachResp pol.id)).fundDistOrig with
            | .error e =>
                .abort []
                  (update_expense_class pol ec.id w.gen ctr
                    (w.detachResp pol.id) (w.reattachResp pol.id)).effects e
            | .ok (cs, ns) =>
                .ok [{ pol_no := some row.1, expense_code := some row.2,
                       pol_id := some pol.id,
                       status_code := some (update_expense_class pol ec.id w.gen ctr
                         (w.detachResp pol.id) (w.reattachResp pol.id)).status_code,
                       message := some (update_expense_class pol ec.id w.gen ctr
                         (w.detachResp pol.id) (w.reattachResp pol.id)).text,
                       original_expense_code := some (String.intercalate " " cs),
                       original_expense_name := some (String.intercalate " " ns),
                       manual_review := some "N" }]
                  (update_expense_class pol ec.id w.gen ctr
                    (w.detachResp pol.id) (w.reattachResp pol.id)).effects
                  (update_expense_class pol ec.id w.gen ctr
                    (w.detachResp pol.id) (w.reattachResp pol.id)).ctr2

/-- pol_expenseclasses.py `main_loop`: process the input rows in order,
stopping at an uncaught exception. -/
def main_loop_ec (ecs : List ExpClass) (w : ECWorld) :
    List (String × String) → Nat → Step ECAuditRow
  | [], ctr => .ok [] [] ctr
  | r :: rest, ctr =>
      match processECRow ecs w r ctr with
      | .abort rows effs e => .abort rows effs e
      | .ok rows1 effs1 ctr1 =>
          match main_loop_ec ecs w rest ctr1 with
          | .ok rows2 effs2 ctr2 => .ok (rows1 ++ rows2) (effs1 ++ effs2) ctr2
          | .abort rows2 effs2 e => .abort (rows1 ++ rows2) (effs1 ++ effs2) e

/-- A concrete uuid supply used by the witnesses. -/
def genW : Nat → String := fun n => "u" ++ toString n

/-- Concrete fund distribution entries used by the witnesses. -/
def fdWa : FundDist :=
  { code := "oldF", fundId := "oldFid", expenseClassId := "ECID1",
    encumbrance := "enc0" }

def fdWb : FundDist :=
  { code := "oldF2", fundId := "oldFid2", expenseClassId := "ECID1",
    encumbrance := "enc1" }

/-- A concrete POL with two fund distributions. -/
def polW : POL := { id := "p1", fundDistribution := [fdWa, fdWb] }

/-- A concrete POL with one fund distribution. -/
def polW1 : POL := { id := "p2", fundDistribution := [fdWa] }

/-- A concrete POL with no fund distributions. -/
def polZero : POL := { id := "p0", fundDistribution := [] }

def respOk : Resp := { status_code := 204, text := "" }

def respFail : Resp := { status_code := 500, text := "boom" }

/-- A concrete funds table: only code `F` exists, with id `FID`. -/
def fundsW : String → Option String :=
  fun c => if c = "F" then some "FID" else none

/-- Fund-driver world where the POL lookup is ambiguous (two records). -/
def wAmbig : FundWorld :=
  { funds := fundsW
    lookup := fun _ => { totalRecords := 2, poLines := [polW1, polW1] }
    encs := fun _ => ["e1"]
    releaseResp := fun _ => respOk
    putResp := fun _ => respOk
    gen := genW }

/-- Fund-driver world where the POL lookup finds nothing. -/
def wNotFound : FundWorld :=
  { funds := fundsW
    lookup := fun _ => { totalRecords := 0, poLines := [] }
    encs := fun _ => ["e1"]
    releaseResp := fun _ => respOk
    putResp := fun _ => respOk
    gen := genW }

/-- Fund-driver world whose POL has two fund distributions. -/
def wMulti : FundWorld :=
  { funds := fundsW
    lookup := fun _ => { totalRecords := 1, poLines := [polW] }
    encs := fun _ => ["e1"]
    releaseResp := fun _ => respOk
    putResp := fun _ => respOk
    gen := genW }

/-- Fund-driver world whose POL has no fund distributions. -/
def wFundZero : FundWorld :=
  { funds := fundsW
    lookup := fun _ => { totalRecords := 1, poLines := [polZero] }
    encs := fun _ => ["e1"]
    releaseResp := fun _ => respOk
    putResp := fun _ => respOk
    gen := genW }

/-- Fund-driver world where releasing the single unreleased encumbrance
fails with HTTP 500 while the later PUT succeeds. -/
def wRelFail : FundWorld :=
  { funds := fundsW
    lookup := fun _ => { totalRecords := 1, poLines := [polW1] }
    encs := fun _ => ["e1"]
    releaseResp := fun _ => { status_code := 500, text := "rboom" }
    putResp := fun _ => { status_code := 204, text := "ok" }
    gen := genW }

/-- The concrete expense-class table used by the witnesses. -/
def ecsW : List ExpClass := [{ id := "ECID1", code := "c1", name := "n1" }]

/-- Expense-class-driver world where the detach PUT succeeds and the
reattach PUT fails with HTTP 500. -/
def wEC : ECWorld :=
  { lookup := fun _ => { totalRecords := 1, poLines := [polW1] }
    detachResp := fun _ => respOk
    reattachResp := fun _ => respFail
    gen := genW }

/-- Expense-class-driver world whose POL has no fund distributions. -/
def wECZero : ECWorld :=
  { lookup := fun _ => { totalRecords := 1, poLines := [polZero] }
    detachResp := fun _ => respOk
    reattachResp := fun _ => respOk
    gen := genW }

/-- A concrete fiscal year covering days 3 to 7. -/
def fyW : FiscalYear :=
  { id := "fy1", periodStart := { date := 3, timeOfDay := 5 },
    periodEnd := { date := 7, timeOfDay := 0 } }

theorem reencumberEC_get? (gen : Nat → String) (ecid : String) :
    ∀ (l : List FundDist) (n i : Nat),
      (reencumberEC gen ecid n l).get? i =
        (l.get? i).map (fun fd =>
          { fd with encumbrance := gen (n + i), expenseClassId := ecid })
  | [], _, _ => by simp [reencumberEC]
  | fd :: rest, n, 0 => by simp [reencumberEC]
  | fd :: rest, n, i + 1 => by
      have h : n + (i + 1) = (n + 1) + i := by omega
      simp only [reencumberEC, List.get?_cons_succ, h]
      exact reencumberEC_get? gen ecid rest (n + 1) i

theorem setFundDists_ok (funds : String → Option String) (fc fid : String)
    (gen : Nat → String) (hf : funds fc = some fid) :
    ∀ (l : List FundDist) (n : Nat),
      ∃ L, setFundDists fc funds gen n l = .ok L ∧
        ∀ i, L.get? i = (l.get? i).map (fun fd =>
          { fd with code := fc, fundId := fid, encumbrance := gen (n + i) })
  | [], n => ⟨[], by simp [setFundDists]⟩
  | fd :: rest, n => by
      obtain ⟨L, hL, hget⟩ := setFundDists_ok funds fc fid gen hf rest (n + 1)
      refine ⟨{ fd with code := fc, fundId := fid, encumbrance := gen n } :: L,
        ?_, ?_⟩
      · simp [setFundDists, hf, hL]
      · intro i
        cases i with
        | zero => simp
        | succ i =>
            have h : n + (i + 1) = (n + 1) + i := by omega
            simp only [List.get?_cons_succ, h]
            exact hget i

/-- C1: in the detach-fail path of `update_expense_class` / `reencumber_pol`
(a non-204 status from the first PUT), the function returns a failure
immediately with the untouched snapshot: the only effect is the detach PUT
itself (no second PUT), no encumbrance token is generated (the uuid counter
is unchanged), and no requested change is applied anywhere. -/
theorem C1_detach_failure_fail_fast (pol : POL) (ecid : String)
    (gen : Nat → String) (ctr : Nat) (d a : Resp)
    (hd : d.status_code ≠ 204) :
    update_expense_class pol ecid gen ctr d a =
      { status_code := d.status_code
        text := "failed to remove fund distribution: \n" ++ d.text
        fundDistOrig := pol.fundDistribution
        effects := [Effect.put pol.id none]
        ctr2 := ctr } ∧
    reencumber_pol pol gen ctr d a =
      { status_code := d.status_code
        text := "failed to remove fund distribution: \n" ++ d.text
        fundDistOrig := pol.fundDistribution
        effects := [Effect.put pol.id none]
        ctr2 := ctr } ∧
    (update_expense_class pol ecid gen ctr d a).status_code ≠ 204 := by
  refine ⟨?_, ?_, ?_⟩ <;>
    simp [update_expense_class, reencumber_pol, hd]

theorem C1_witness :
    respFail.status_code ≠ 204 ∧
    update_expense_class polW "ECX" genW 0 respFail respOk =
      { status_code := 500
        text := "failed to remove fund distribution: \nboom"
        fundDistOrig := [fdWa, fdWb]
        effects := [Effect.put "p1" none]
        ctr2 := 0 } :=
  ⟨by decide, by
    have h :=
      (C1_detach_failure_fail_fast polW "ECX" genW 0 respFail respOk
        (by decide)).1
    rw [h]
    rfl⟩

/-- C2: both engine variants always return the snapshot of the distribution
list taken at entry (the deep copy insulates it from the in-place mutations),
and once the detach PUT succeeded the returned status and message are those
of the second (reattach) PUT whether or not it succeeded; `set_pol_fund`
likewise returns the entry snapshot. -/
theorem C2_snapshot_and_second_put_result (pol : POL) (ecid fc : String)
    (funds : String → Option String) (gen : Nat → String) (ctr : Nat)
    (d a p : Resp) (r2 : EngineResult)
    (_hne : pol.fundDistribution ≠ []) :
    (update_expense_class pol ecid gen ctr d a).fundDistOrig
        = pol.fundDistribution ∧
    (reencumber_pol pol gen ctr d a).fundDistOrig = pol.fundDistribution ∧
    (d.status_code = 204 →
      (update_expense_class pol ecid gen ctr d a).status_code = a.status_code ∧
      (update_expense_class pol ecid gen ctr d a).text = a.text ∧
      (reencumber_pol pol gen ctr d a).status_code = a.status_code ∧
      (reencumber_pol pol gen ctr d a).text = a.text) ∧
    (set_pol_fund pol fc funds gen ctr p = .ok r2 →
      r2.fundDistOrig = pol.fundDistribution) := by
  refine ⟨?_, ?_, ?_, ?_⟩
  · unfold update_expense_class; split <;> rfl
  · unfold reencumber_pol; split <;> rfl
  · intro h204
    refine ⟨?_, ?_, ?_, ?_⟩ <;>
      simp [update_expense_class, reencumber_pol, h204]
  · unfold set_pol_fund
    cases h : setFundDists fc funds gen ctr pol.fundDistribution with
    | error e => simp [h]
    | ok L =>
        simp only [h]
        intro hok
        cases hok
        rfl

theorem C2_witness :
    polW.fundDistribution ≠ [] ∧
    (update_expense_class polW "ECX" genW 0 respOk respFail).status_code
      = respFail.status_code ∧
    (update_expense_class polW "ECX" genW 0 respOk respFail).fundDistOrig
      = polW.fundDistribution := by
  have h := C2_snapshot_and_second_put_result polW "ECX" "F" fundsW genW 0
    respOk respFail respOk
    { status_code := 204, text := "", fundDistOrig := [],
      effects := [], ctr2 := 0 }
    (by decide)
  exact ⟨by decide, (h.2.2.1 (by decide)).1, h.1⟩

/-- C8: `get_fiscal_year` only returns a fiscal year whose truncated period
start is at most today and whose truncated period end is at least today
(inclusive on both ends, comparing dates only), and it returns `None`
exactly when no fiscal year in the list contains today. -/
theorem C8_current_fiscal_year_inclusive (today : Int) (l : List FiscalYear) :
    (∀ fy, get_fiscal_year today l = some fy →
      toDate fy.periodStart ≤ today ∧ today ≤ toDate fy.periodEnd) ∧
    (get_fiscal_year today l = none ↔
      ∀ fy ∈ l,
        ¬(toDate fy.periodStart ≤ today ∧ today ≤ toDate fy.periodEnd)) := by
  induction l with
  | nil => simp [get_fiscal_year]
  | cons fy rest ih =>
      by_cases h : toDate fy.periodStart ≤ today ∧ today ≤ toDate fy.periodEnd
      · refine ⟨?_, ?_⟩
        · intro fy' heq
          simp only [get_fiscal_year, if_pos h] at heq
          cases heq
          exact h
        · simp [get_fiscal_year, if_pos h, h]
      · refine ⟨?_, ?_⟩
        · intro fy' heq
          simp only [get_fiscal_year, if_neg h] at heq
          exact ih.1 fy' heq
        · simp only [get_fiscal_year, if_neg h, List.mem_cons]
          rw [ih.2]
          constructor
          · intro hall fy' hmem
            cases hmem with
            | inl heq => cases heq; exact h
            | inr hmem => exact hall fy' hmem
          · intro hall fy' hmem
            exact hall fy' (Or.inr hmem)

theorem C8_witness :
    toDate fyW.periodStart ≤ 5 ∧ 5 ≤ toDate fyW.periodEnd :=
  (C8_current_fiscal_year_inclusive 5 [fyW]).1 fyW (by decide)

/-- C3: when the workflow completes (detach PUT succeeded), every entry of the
original distribution list — not only the first — is persisted with the
requested change (the new expense-class identifier in
`update_expense_class`; the new fund code and fund identifier in
`set_pol_fund`) and with its encumbrance reference overwritten by the freshly
generated token for its position; under the uuid-supply assumptions
(injectivity over the positions used, and avoidance of the tokens already on
the entries) the fresh tokens are pairwise distinct and each differs from the
entry's original token. -/
theorem C3_reattach_every_entry_fresh_tokens (pol : POL)
    (ecid fc fid : String) (gen : Nat → String) (ctr : Nat) (d a p : Resp)
    (funds : String → Option String)
    (_hne : pol.fundDistribution ≠ [])
    (hd : d.status_code = 204)
    (hf : funds fc = some fid)
    (hinj : ∀ i, i < pol.fundDistribution.length →
      ∀ j, j < pol.fundDistribution.length → i ≠ j →
        gen (ctr + i) ≠ gen (ctr + j))
    (hfresh : ∀ i, i < pol.fundDistribution.length →
      ∀ fd ∈ pol.fundDistribution, gen (ctr + i) ≠ fd.encumbrance) :
    ((update_expense_class pol ecid gen ctr d a).effects =
      [Effect.put pol.id none,
       Effect.put pol.id
         (some (reencumberEC gen ecid ctr pol.fundDistribution))]) ∧
    (∀ i, (reencumberEC gen ecid ctr pol.fundDistribution).get? i =
      (pol.fundDistribution.get? i).map (fun fd =>
        { fd with encumbrance := gen (ctr + i), expenseClassId := ecid })) ∧
    (∀ i j, i < pol.fundDistribution.length →
      j < pol.fundDistribution.length → i ≠ j →
      ((reencumberEC gen ecid ctr pol.fundDistribution).get? i).map
          FundDist.encumbrance ≠
        ((reencumberEC gen ecid ctr pol.fundDistribution).get? j).map
          FundDist.encumbrance) ∧
    (∀ i, i < pol.fundDistribution.length →
      ((reencumberEC gen ecid ctr pol.fundDistribution).get? i).map
          FundDist.encumbrance ≠
        (pol.fundDistribution.get? i).map FundDist.encumbrance) ∧
    (∃ L, set_pol_fund pol fc funds gen ctr p =
        .ok { status_code := p.status_code, text := p.text,
              fundDistOrig := pol.fundDistribution,
              effects := [Effect.put pol.id (some L)],
              ctr2 := ctr + pol.fundDistribution.length } ∧
      (∀ i, L.get? i = (pol.fundDistribution.get? i).map (fun fd =>
        { fd with code := fc, fundId := fid, encumbrance := gen (ctr + i) })) ∧
      (∀ i j, i < pol.fundDistribution.length →
        j < pol.fundDistribution.length → i ≠ j →
        (L.get? i).map FundDist.encumbrance ≠
          (L.get? j).map FundDist.encumbrance) ∧
      (∀ i, i < pol.fundDistribution.length →
        (L.get? i).map FundDist.encumbrance ≠
          (pol.fundDistribution.get? i).map FundDist.encumbrance)) := by
  have hget := reencumberEC_get? gen ecid pol.fundDistribution ctr
  obtain ⟨L, hL, hLget⟩ :=
    setFundDists_ok funds fc fid gen hf pol.fundDistribution ctr
  refine ⟨?_, hget, ?_, ?_, L, ?_, hLget, ?_, ?_⟩
  · simp [update_expense_class, hd]
  · intro i j hi hj hij
    rw [hget i, hget j, List.get?_eq_get hi, List.get?_eq_get hj]
    simpa using hinj i hi j hj hij
  · intro i hi
    rw [hget i, List.get?_eq_get hi]
    simpa using hfresh i hi _ (List.get_mem pol.fundDistribution i hi)
  · simp [set_pol_fund, hL]
  · intro i j hi hj hij
    rw [hLget i, hLget j, List.get?_eq_get hi, List.get?_eq_get hj]
    simpa using hinj i hi j hj hij
  · intro i hi
    rw [hLget i, List.get?_eq_get hi]
    simpa using hfresh i hi _ (List.get_mem pol.fundDistribution i hi)

theorem C3_witness :
    ((reencumberEC genW "ECX" 0 polW.fundDistribution).get? 0).map
        FundDist.encumbrance ≠
      ((reencumberEC genW "ECX" 0 polW.fundDistribution).get? 1).map
        FundDist.encumbrance ∧
    ((reencumberEC genW "ECX" 0 polW.fundDistribution).get? 0).map
        FundDist.encumbrance ≠
      (polW.fundDistribution.get? 0).map FundDist.encumbrance := by
  have h := C3_reattach_every_entry_fresh_tokens polW "ECX" "F" "FID" genW 0
    respOk respOk respOk fundsW (by decide) (by decide) (by decide)
    (by decide) (by decide)
  exact ⟨h.2.2.1 0 1 (by decide) (by decide) (by decide),
    h.2.2.2.1 0 (by decide)⟩

theorem releaseLoop_no_put (w : FundWorld) (pno : String) (l : List String)
    (pid : String) (pay : Option (List FundDist)) :
    Effect.put pid pay ∉ (releaseLoop w pno l).2 := by
  induction l with
  | nil => simp [releaseLoop]
  | cons e rest ih =>
      simp only [releaseLoop]
      split
      · simp only [List.mem_cons]
        rintro (h | h)
        · cases h
        · exact ih h
      · simp only [List.mem_cons]
        rintro (h | h)
        · cases h
        · exact ih h

/-- C7: a zero-match POL lookup returns a plain not-found value rather than
raising, and the fund-driver loop turns it into a single audit row with the
"No POL found..." message and `manual_review = "Y"`, performs no mutating
remote call for that row, and goes on to process the remaining rows. -/
theorem C7_zero_match_not_found (w : FundWorld) (pol_no fund fid : String)
    (rest : List (String × String)) (ctr : Nat)
    (hfund : w.funds fund = some fid)
    (hlook : (w.lookup pol_no).totalRecords = 0) :
    (∀ pn (res : PolQueryRes), res.totalRecords = 0 →
      get_pol_by_line_no pn res = .ok none) ∧
    processFundRow w (pol_no, fund) ctr =
      .ok [{ pol_no := some pol_no, fund := some fund,
             message := some ("No POL found for line number "
               ++ sqMark ++ pol_no ++ sqMark),
             manual_review := some "Y" }] [] ctr ∧
    (∀ rows effs ctr2, main_loop_fund w rest ctr = .ok rows effs ctr2 →
      main_loop_fund w ((pol_no, fund) :: rest) ctr =
        .ok ({ pol_no := some pol_no, fund := some fund,
               message := some ("No POL found for line number "
                 ++ sqMark ++ pol_no ++ sqMark),
               manual_review := some "Y" } :: rows) effs ctr2) := by
  have hget : get_pol_by_line_no pol_no (w.lookup pol_no) = .ok none := by
    simp [get_pol_by_line_no, hlook]
  have hrow : processFundRow w (pol_no, fund) ctr =
      .ok [{ pol_no := some pol_no, fund := some fund,
             message := some ("No POL found for line number "
               ++ sqMark ++ pol_no ++ sqMark),
             manual_review := some "Y" }] [] ctr := by
    simp [processFundRow, hfund, hget]
  refine ⟨?_, hrow, ?_⟩
  · intro pn res h0
    simp [get_pol_by_line_no, h0]
  · intro rows effs ctr2 hrest
    simp [main_loop_fund, hrow, hrest]

theorem C7_witness :
    processFundRow wNotFound ("P9", "F") 0 =
      .ok [{ pol_no := some "P9", fund := some "F",
             message := some ("No POL found for line number "
               ++ sqMark ++ "P9" ++ sqMark),
             manual_review := some "Y" }] [] 0 :=
  (C7_zero_match_not_found wNotFound "P9" "F" "FID" [] 0 (by decide)
    (by decide)).2.1

/-- C9: the fund driver reaches `set_pol_fund` (the only source of a PUT
effect in a row) only when the looked-up POL has exactly one fund
distribution and exactly one unreleased encumbrance; a row with several
distributions, or with a number of unreleased encumbrances other than one,
produces a single manual-review audit row, no mutating effect, and the loop
moves on. -/
theorem C9_put_only_when_single_dist_single_enc (w : FundWorld)
    (pol_no fund fid : String) (pol : POL) (ctr : Nat)
    (hfund : w.funds fund = some fid)
    (hlk : get_pol_by_line_no pol_no (w.lookup pol_no) = .ok (some pol)) :
    (1 < pol.fundDistribution.length →
      processFundRow w (pol_no, fund) ctr =
        .ok [{ pol_no := some pol_no,
               message := some ("POL has "
                 ++ toString pol.fundDistribution.length
                 ++ " fund distributions"),
               manual_review := some "Y" }] [] ctr) ∧
    (pol.fundDistribution.length = 1 → (w.encs pol.id).length ≠ 1 →
      processFundRow w (pol_no, fund) ctr =
        .ok [{ pol_no := some pol_no,
               message := some ("POL has "
                 ++ toString (w.encs pol.id).length
                 ++ " unreleased encumbrances"),
               manual_review := some "Y" }] [] ctr) ∧
    (∀ pid pay,
      Effect.put pid pay ∈ (processFundRow w (pol_no, fund) ctr).effects →
      pol.fundDistribution.length = 1 ∧ (w.encs pol.id).length = 1) := by
  refine ⟨?_, ?_, ?_⟩
  · intro h1
    have h0 : ¬(pol.fundDistribution.length = 0) := by omega
    simp [processFundRow, hfund, hlk, if_neg h0, if_pos h1]
    intro hnil
    rw [hnil] at h1
    simp at h1
  · intro h1 h2
    have h0 : ¬(pol.fundDistribution.length = 0) := by omega
    have h1f : ¬(1 < pol.fundDistribution.length) := by omega
    simp [processFundRow, hfund, hlk, if_neg h0, if_neg h1f, if_pos h2]
    intro hnil
    rw [hnil] at h1
    simp at h1
  · intro pid pay hmem
    simp only [processFundRow, hfund, hlk] at hmem
    by_cases h0 : pol.fundDistribution.length = 0
    · rw [if_pos h0] at hmem
      simp [Step.effects] at hmem
    · rw [if_neg h0] at hmem
      by_cases h1 : 1 < pol.fundDistribution.length
      · rw [if_pos h1] at hmem
        simp [Step.effects] at hmem
      · rw [if_neg h1] at hmem
        by_cases h2 : (w.encs pol.id).length ≠ 1
        · rw [if_pos h2] at hmem
          simp [Step.effects] at hmem
        · exact ⟨by omega, by omega⟩

theorem C9_witness :
    processFundRow wMulti ("P1", "F") 0 =
      .ok [{ pol_no := some "P1",
             message := some ("POL has "
               ++ toString polW.fundDistribution.length
               ++ " fund distributions"),
             manual_review := some "Y" }] [] 0 :=
  (C9_put_only_when_single_dist_single_enc wMulti "P1" "F" "FID" polW 0
    (by decide) (by rfl)).1 (by decide)

/-- C10: in the fund driver, a failed release POST (status other than 204)
only writes an extra manual-review row — the `continue` is inside the inner
loop over the encumbrance list — so `set_pol_fund` still runs for the same
input row, its PUT is performed, and a second audit row is written with
`manual_review = "N"`. -/
theorem C10_release_failure_still_puts (w : FundWorld)
    (pol_no fund fid e : String) (pol : POL) (fd : FundDist) (ctr : Nat)
    (hfund : w.funds fund = some fid)
    (hlk : get_pol_by_line_no pol_no (w.lookup pol_no) = .ok (some pol))
    (hdist : pol.fundDistribution = [fd])
    (hencs : w.encs pol.id = [e])
    (hrel : (w.releaseResp e).status_code ≠ 204) :
    processFundRow w (pol_no, fund) ctr =
      .ok [{ pol_no := some pol_no,
             status_code := some (w.releaseResp e).status_code,
             message := some ("failed to release encumbrance: "
               ++ jsonDumpsString (w.releaseResp e).text),
             manual_review := some "Y" },
           { pol_no := some pol_no, fund := some fund,
             pol_id := some pol.id,
             status_code := some (w.putResp pol.id).status_code,
             message := some (w.putResp pol.id).text,
             original_fund_distribution := some [fd],
             manual_review := some "N" }]
        [Effect.post_release e,
         Effect.put pol.id (some [{ fd with code := fund, fundId := fid,
                                            encumbrance := w.gen ctr }])]
        (ctr + 1) := by
  simp [processFundRow, set_pol_fund, setFundDists, releaseLoop,
    hfund, hlk, hdist, hencs, hrel]

theorem C10_witness :
    processFundRow wRelFail ("P1", "F") 0 =
      .ok [{ pol_no := some "P1",
             status_code := some 500,
             message := some ("failed to release encumbrance: "
               ++ jsonDumpsString "rboom"),
             manual_review := some "Y" },
           { pol_no := some "P1", fund := some "F",
             pol_id := some "p2",
             status_code := some 204,
             message := some "ok",
             original_fund_distribution := some [fdWa],
             manual_review := some "N" }]
        [Effect.post_release "e1",
         Effect.put "p2" (some [{ code := "F", fundId := "FID",
                                  expenseClassId := "ECID1",
                                  encumbrance := "u0" }])]
        1 := by
  have h := C10_release_failure_still_puts wRelFail "P1" "F" "FID" "e1"
    polW1 fdWa 0 (by decide) (by rfl) (by decide) (by decide) (by decide)
  rw [h]
  decide

/-- C4 counterexample: an ambiguous (two-match) barcode lookup returns the
first item and is indistinguishable from a unique match on the same item, so
the lookup silently picks one candidate; and an ambiguous POL lookup makes
the fund driver abort with an exception — no manual-review audit row is
written and the batch does not continue. -/
theorem C4_counterexample :
    get_item_by_barcode
        { totalRecords := 2, items := [{ id := "A" }, { id := "B" }] }
      = .ok (some { id := "A" }) ∧
    get_item_by_barcode { totalRecords := 1, items := [{ id := "A" }] }
      = .ok (some { id := "A" }) ∧
    processFundRow wAmbig ("P1", "F") 0 =
      .abort [] []
        ("query for POL num P1 resulted in 2 results, should be unique") := by
  refine ⟨by rfl, by rfl, by rfl⟩

/-- C4 (amended): a lookup matching more than one record is never recorded
as a manual-review row.  The POL lookup by line number raises (the fund
driver aborts with no audit row for that row); the item lookup by barcode
silently returns the first matching item. -/
theorem C4_amended_ambiguous_lookups (pol_no : String) (res : PolQueryRes)
    (ires : ItemQueryRes) (it : Item) (tl : List Item)
    (w : FundWorld) (fund fid : String) (ctr : Nat)
    (hres : 1 < res.totalRecords)
    (hires : 1 < ires.totalRecords) (hitems : ires.items = it :: tl)
    (hfund : w.funds fund = some fid)
    (hw : 1 < (w.lookup pol_no).totalRecords) :
    get_pol_by_line_no pol_no res =
      .error ("query for POL num " ++ pol_no ++ " resulted in "
        ++ toString res.totalRecords ++ " results, should be unique") ∧
    get_item_by_barcode ires = .ok (some it) ∧
    processFundRow w (pol_no, fund) ctr = .abort [] []
      ("query for POL num " ++ pol_no ++ " resulted in "
        ++ toString (w.lookup pol_no).totalRecords
        ++ " results, should be unique") := by
  have h0 : ¬(res.totalRecords = 0) := by omega
  have hi0 : ¬(ires.totalRecords = 0) := by omega
  have hw0 : ¬((w.lookup pol_no).totalRecords = 0) := by omega
  have hpol : get_pol_by_line_no pol_no (w.lookup pol_no) =
      .error ("query for POL num " ++ pol_no ++ " resulted in "
        ++ toString (w.lookup pol_no).totalRecords
        ++ " results, should be unique") := by
    simp [get_pol_by_line_no, hw0, hw]
  refine ⟨?_, ?_, ?_⟩
  · simp [get_pol_by_line_no, h0, hres]
  · simp [get_item_by_barcode, hi0, hitems]
  · simp [processFundRow, hfund, hpol]

theorem C4_witness :
    get_item_by_barcode
        { totalRecords := 2, items := [{ id := "A" }, { id := "B" }] }
      = .ok (some { id := "A" }) ∧
    processFundRow wAmbig ("P2", "F") 0 = .abort [] []
      ("query for POL num " ++ "P2" ++ " resulted in "
        ++ toString (wAmbig.lookup "P2").totalRecords
        ++ " results, should be unique") := by
  have h := C4_amended_ambiguous_lookups "P2"
    { totalRecords := 2, poLines := [polW1, polW1] }
    { totalRecords := 2, items := [{ id := "A" }, { id := "B" }] }
    { id := "A" } [{ id := "B" }] wAmbig "F" "FID" 0
    (by decide) (by decide) (by decide) (by decide) (by decide)
  exact ⟨h.2.1, h.2.2⟩

/-- C5 counterexample: with the detach PUT succeeding and the reattach PUT
failing with HTTP 500, the expense-class driver writes the audit row with
`manual_review = "N"`, not `"Y"` — the flag does not mark the partially
failed row for manual review. -/
theorem C5_counterexample :
    processECRow ecsW wEC ("P1", "c1") 0 =
      .ok [{ pol_no := some "P1", expense_code := some "c1",
             pol_id := some "p2", status_code := some 500,
             message := some "boom",
             original_expense_code := some "c1",
             original_expense_name := some "n1",
             manual_review := some "N" }]
        [Effect.put "p2" none,
         Effect.put "p2" (some [{ code := "oldF", fundId := "oldFid",
                                  expenseClassId := "ECID1",
                                  encumbrance := "u0" }])]
        1 := by
  rfl

/-- C5 (amended): when the detach succeeded and the reattach call returned a
non-success status, the audit row reports the reattach failure status and
message and carries the original expense codes/names derived from the
snapshot, but its manual-review flag is `"N"` — the same value as for fully
automated successes. -/
theorem C5_amended_reattach_failure_row (ecs : List ExpClass) (w : ECWorld)
    (pol_no code : String) (pol : POL) (ec : ExpClass) (ctr : Nat)
    (cs ns : List String)
    (hlk : get_pol_by_line_no pol_no (w.lookup pol_no) = .ok (some pol))
    (hne : pol.fundDistribution.length ≠ 0)
    (hec : dictLookup code (ec_by_code ecs) = some ec)
    (hd : (w.detachResp pol.id).status_code = 204)
    (ha : (w.reattachResp pol.id).status_code ≠ 204)
    (horig : origExpCodes ecs pol.fundDistribution = .ok (cs, ns)) :
    processECRow ecs w (pol_no, code) ctr =
      .ok [{ pol_no := some pol_no, expense_code := some code,
             pol_id := some pol.id,
             status_code := some (w.reattachResp pol.id).status_code,
             message := some (w.reattachResp pol.id).text,
             original_expense_code := some (String.intercalate " " cs),
             original_expense_name := some (String.intercalate " " ns),
             manual_review := some "N" }]
        [Effect.put pol.id none,
         Effect.put pol.id
           (some (reencumberEC w.gen ec.id ctr pol.fundDistribution))]
        (ctr + pol.fundDistribution.length) ∧
    (w.reattachResp pol.id).status_code ≠ 204 := by
  have hup : update_expense_class pol ec.id w.gen ctr
      (w.detachResp pol.id) (w.reattachResp pol.id) =
      { status_code := (w.reattachResp pol.id).status_code
        text := (w.reattachResp pol.id).text
        fundDistOrig := pol.fundDistribution
        effects := [Effect.put pol.id none,
                    Effect.put pol.id
                      (some (reencumberEC w.gen ec.id ctr pol.fundDistribution))]
        ctr2 := ctr + pol.fundDistribution.length } := by
    simp [update_expense_class, hd]
  have hne2 : ¬(pol.fundDistribution = []) := by
    intro h
    rw [h] at hne
    simp at hne
  refine ⟨?_, ha⟩
  simp [processECRow, hlk, if_neg hne, hec, hup, horig, hne2]

theorem C5_witness :
    processECRow ecsW wEC ("P3", "c1") 0 =
      .ok [{ pol_no := some "P3", expense_code := some "c1",
             pol_id := some polW1.id,
             status_code := some (wEC.reattachResp polW1.id).status_code,
             message := some (wEC.reattachResp polW1.id).text,
             original_expense_code := some (String.intercalate " " ["c1"]),
             original_expense_name := some (String.intercalate " " ["n1"]),
             manual_review := some "N" }]
        [Effect.put polW1.id none,
         Effect.put polW1.id
           (some (reencumberEC wEC.gen "ECID1" 0 polW1.fundDistribution))]
        (0 + polW1.fundDistribution.length) :=
  (C5_amended_reattach_failure_row ecsW wEC "P3" "c1" polW1
    { id := "ECID1", code := "c1", name := "n1" } 0 ["c1"] ["n1"]
    (by rfl) (by decide) (by decide) (by decide) (by decide) (by rfl)).1

/-- C6 counterexample: an input row whose requested expense-class code is
not in the lookup table makes the expense-class driver raise `KeyError`
(an abort): no manual-review audit row is written and the batch does not
continue — though no remote mutation happens either. -/
theorem C6_counterexample :
    processECRow ecsW wEC ("P1", "zz") 0 =
      .abort [] [] ("KeyError: " ++ sqMark ++ "zz" ++ sqMark) ∧
    main_loop_ec ecsW wEC [("P1", "zz"), ("P4", "c1")] 0 =
      .abort [] [] ("KeyError: " ++ sqMark ++ "zz" ++ sqMark) := by
  refine ⟨by rfl, by rfl⟩

/-- C6 (amended): rows with zero fund distributions (both drivers) and rows
with an unknown fund code (fund driver) each produce a single manual-review
audit row, no remote mutation, and the batch continues; but in the
expense-class driver an unknown expense-class code raises a `KeyError` that
aborts the whole batch without writing an audit row for the offending row
(no remote mutation is attempted for that row either). -/
theorem C6_amended_precondition_handling (w : FundWorld) (w2 : ECWorld)
    (ecs : List ExpClass) (pol_no fund code : String) (ctr : Nat) :
    (w.funds fund = none →
      processFundRow w (pol_no, fund) ctr =
        .ok [{ pol_no := some pol_no, fund := some fund,
               message := some "fund code does not exist",
               manual_review := some "Y" }] [] ctr) ∧
    (∀ fid pol, w.funds fund = some fid →
      get_pol_by_line_no pol_no (w.lookup pol_no) = .ok (some pol) →
      pol.fundDistribution = [] →
      processFundRow w (pol_no, fund) ctr =
        .ok [{ pol_no := some pol_no,
               message := some "POL has 0 fund distributions",
               manual_review := some "Y" }] [] ctr) ∧
    (∀ pol, get_pol_by_line_no pol_no (w2.lookup pol_no) = .ok (some pol) →
      pol.fundDistribution = [] →
      processECRow ecs w2 (pol_no, code) ctr =
        .ok [{ pol_no := some pol_no,
               message := some "POL has 0 fund distributions",
               manual_review := some "Y" }] [] ctr) ∧
    (∀ pol, get_pol_by_line_no pol_no (w2.lookup pol_no) = .ok (some pol) →
      pol.fundDistribution.length ≠ 0 →
      dictLookup code (ec_by_code ecs) = none →
      processECRow ecs w2 (pol_no, code) ctr =
        .abort [] [] ("KeyError: " ++ sqMark ++ code ++ sqMark)) := by
  refine ⟨?_, ?_, ?_, ?_⟩
  · intro hmiss
    simp [processFundRow, hmiss]
  · intro fid pol hfund hlk hdist
    simp [processFundRow, hfund, hlk, hdist]
  · intro pol hlk hdist
    simp [processECRow, hlk, hdist]
  · intro pol hlk hne hmiss
    have hne2 : ¬(pol.fundDistribution = []) := by
      intro h
      rw [h] at hne
      simp at hne
    simp [processECRow, hlk, if_neg hne, hmiss, hne2]

theorem C6_witness :
    processFundRow wNotFound ("P", "X") 0 =
      .ok [{ pol_no := some "P", fund := some "X",
             message := some "fund code does not exist",
             manual_review := some "Y" }] [] 0 ∧
    processFundRow wFundZero ("P", "F") 0 =
      .ok [{ pol_no := some "P",
             message := some "POL has 0 fund distributions",
             manual_review := some "Y" }] [] 0 ∧
    processECRow ecsW wECZero ("P", "c1") 0 =
      .ok [{ pol_no := some "P",
             message := some "POL has 0 fund distributions",
             manual_review := some "Y" }] [] 0 ∧
    processECRow ecsW wEC ("P", "zz") 0 =
      .abort [] [] ("KeyError: " ++ sqMark ++ "zz" ++ sqMark) := by
  have h1 := C6_amended_precondition_handling wNotFound wECZero ecsW
    "P" "X" "c1" 0
  have h2 := C6_amended_precondition_handling wFundZero wEC ecsW
    "P" "F" "zz" 0
  exact ⟨h1.1 (by decide),
    h2.2.1 "FID" polZero (by decide) (by rfl) (by decide),
    h1.2.2.1 polZero (by rfl) (by decide),
    h2.2.2.2 polW1 (by rfl) (by decide) (by decide)⟩
